import Mathlib

/-!
Shallow embedding of the identity and licensing subsystem of the usenet-sync
desktop application (src-tauri/src/identity/mod.rs and
src-tauri/src/license/mod.rs).

Modelling conventions:
* The OS keyring (crate `keyring`, service name `"UsenetSync"`) is a partial
  map from entry names to stored values.  The Rust code stores strings; the
  model keeps values in parsed form (`Value`), so the exact serde_json /
  base64 round trips of the source become constructor matches:  a stored
  value that is not of the expected constructor corresponds to a string the
  source fails to deserialize.
* Wall-clock time (`Utc::now()` / `SystemTime::now()`, in seconds), the
  device fingerprint digest computed by `generate_device_fingerprint`, the
  32 random bytes `OsRng` yields for a fresh keypair, and the hex-encoded
  SHA3-256 digest function are supplied by an explicit environment `Env`.
  `Env.hash` models `hex::encode (Sha3_256 (utf8 input))`; theorems that
  need collision resistance of SHA3-256 take `Function.Injective env.hash`
  as an explicit idealization hypothesis.
* The ed25519-dalek primitives are modelled by executable functions
  (`edPkOf`, `edSignRaw`, `edVerifyRaw`): deterministic signing producing a
  64-byte signature, verification accepting exactly the signature produced
  by the matching secret key.  Parsing checks of the library
  (`SecretKey::from_bytes`, `PublicKey::from_bytes`,
  `Signature::from_bytes`) are modelled as their length checks.
* Each fallible Rust method returns `Except Err α`; since the Rust methods
  mutate `self` and the keyring before a later error can occur, every
  stateful operation returns `Except Err α × Store × IdentityManager`
  (result, keyring state, manager state).
-/

namespace UsenetSync

/-- Mirrors `enum LicenseType` (license/mod.rs, lines 8-15). -/
inductive LicenseType where
  | Trial
  | Personal
  | Professional
  | Enterprise
  | Lifetime
deriving DecidableEq

/-- Mirrors `struct LicenseFeatures` (license/mod.rs, lines 17-32). -/
structure LicenseFeatures where
  max_storage_gb : Option Nat
  max_folders : Option Nat
  max_files : Option Nat
  max_connections : Nat
  parallel_uploads : Nat
  parallel_downloads : Nat
  encryption_enabled : Bool
  private_shares : Bool
  password_shares : Bool
  auto_resume : Bool
  scheduled_sync : Bool
  api_access : Bool
  priority_support : Bool
deriving DecidableEq

/-- `LicenseFeatures::trial()` (license/mod.rs, lines 35-51). -/
def LicenseFeatures.trial : LicenseFeatures :=
  { max_storage_gb := some 10
    max_folders := some 100
    max_files := some 1000
    max_connections := 2
    parallel_uploads := 1
    parallel_downloads := 2
    encryption_enabled := true
    private_shares := false
    password_shares := false
    auto_resume := false
    scheduled_sync := false
    api_access := false
    priority_support := false }

/-- `LicenseFeatures::personal()` (license/mod.rs, lines 53-69). -/
def LicenseFeatures.personal : LicenseFeatures :=
  { max_storage_gb := some 1000
    max_folders := some 10000
    max_files := some 100000
    max_connections := 10
    parallel_uploads := 4
    parallel_downloads := 8
    encryption_enabled := true
    private_shares := true
    password_shares := true
    auto_resume := true
    scheduled_sync := true
    api_access := false
    priority_support := false }

/-- `LicenseFeatures::enterprise()` (license/mod.rs, lines 89-105). -/
def LicenseFeatures.enterprise : LicenseFeatures :=
  { max_storage_gb := none
    max_folders := none
    max_files := none
    max_connections := 60
    parallel_uploads := 20
    parallel_downloads := 40
    encryption_enabled := true
    private_shares := true
    password_shares := true
    auto_resume := true
    scheduled_sync := true
    api_access := true
    priority_support := true }

/-- Mirrors `struct License` (license/mod.rs, lines 112-125).  `DateTime<Utc>`
is modelled as seconds since the epoch (`Int`). -/
structure License where
  license_id : String
  user_id : String
  license_type : LicenseType
  activated_at : Int
  expires_at : Option Int
  device_fingerprint : String
  features : LicenseFeatures
  signature : String
  is_active : Bool
  activation_count : Nat
  max_activations : Nat
deriving DecidableEq

/-- Mirrors `struct LicenseKey` (license/mod.rs, lines 127-134). -/
structure LicenseKey where
  key : String
  license_type : LicenseType
  duration_days : Option Int
  max_activations : Nat
  features : LicenseFeatures
deriving DecidableEq

/-- The JSON object carried by a transport-encoded license-key string.  It
has the five fields `serde_json` deserializes into `LicenseKey`, plus
`extra`: any additional members present in the JSON text (for example a
`price` field), which `serde_json` ignores when deserializing a struct
without `deny_unknown_fields`. -/
structure KeyPayload where
  key : String
  license_type : LicenseType
  duration_days : Option Int
  max_activations : Nat
  features : LicenseFeatures
  extra : List (String × String)
deriving DecidableEq

/-- Mirrors `struct ImmutableIdentity` (identity/mod.rs, lines 11-18). -/
structure ImmutableIdentity where
  user_id : String
  public_key : List Nat
  created_at : Int
  device_fingerprint : String
  version : Nat
deriving DecidableEq

/-- A value held in a keyring entry (parsed form of the stored string). -/
inductive Value where
  | str (s : String)
  | bytes (b : List Nat)
  | ident (i : ImmutableIdentity)
  | lic (l : License)
deriving DecidableEq

/-- The keyring under service `"UsenetSync"`: entry name to stored value. -/
abbrev Store := String → Option Value

def Store.empty : Store := fun _ => none

/-- `Entry::set_password`. -/
def Store.set (st : Store) (k : String) (v : Value) : Store :=
  fun k2 => if k2 = k then some v else st k2

/-- `Entry::delete_password`. -/
def Store.del (st : Store) (k : String) : Store :=
  fun k2 => if k2 = k then none else st k2

/-- Ambient inputs of the two managers, see the module docstring. -/
structure Env where
  now : Int
  fingerprint : String
  freshSk : List Nat
  hash : String → String

/-- Error kinds of the `anyhow` errors raised by the source. -/
inductive Err where
  | trialAlreadyUsed
  | deviceVerificationFailed
  | invalidLicenseKey
  | activationLimitReached
  | keyNotFound
  | parseError
  | noLicense
deriving DecidableEq

deriving instance DecidableEq for Except

/-- Model of ed25519-dalek public-key derivation (`keypair.public`): an
injective byte-wise transformation of the 32 secret-key bytes. -/
def edPkOf (sk : List Nat) : List Nat :=
  sk.map (fun b => (b + 1) % 256)

/-- Inverse of `edPkOf` on valid byte lists, used by signature verification
in the model. -/
def edSkOfPk (pk : List Nat) : List Nat :=
  pk.map (fun b => (b + 255) % 256)

/-- Mixing function standing in for the ed25519 internals: the exact values
are irrelevant to every claim, only determinism matters. -/
def edDigest (l : List Nat) : Nat :=
  l.foldl (fun acc b => acc * 131 + b + 7) 17

/-- Model of `keypair.sign(data)`: a deterministic 64-byte signature. -/
def edSignRaw (sk data : List Nat) : List Nat :=
  (List.range 64).map (fun j => (edDigest (sk ++ data) + 31 * j) % 256)

/-- Model of `public_key.verify(data, signature)`: verification accepts
exactly the signature the matching secret key produces. -/
def edVerifyRaw (pk data sig2 : List Nat) : Bool :=
  sig2 == edSignRaw (edSkOfPk pk) data

/-- Flip bit `k2` of byte `j` of a byte list. -/
def flipBit (j k2 : Nat) (l : List Nat) : List Nat :=
  l.set j ((l.getD j 0) ^^^ (2 ^ k2))

def hexDigit (n : Nat) : Char :=
  if n < 10 then Char.ofNat (48 + n) else Char.ofNat (87 + n)

def hexByte (b : Nat) : String :=
  String.mk [hexDigit (b / 16 % 16), hexDigit (b % 16)]

/-- `hex::encode` on a byte list. -/
def hexEncode (l : List Nat) : String :=
  (l.map hexByte).foldl (fun a s => a ++ s) ""

/-- Mirrors `struct IdentityManager` (identity/mod.rs, lines 28-32); the two
constant keyring strings (`"UsenetSync"`, `"Identity"`) are inlined. -/
structure IdentityManager where
  identity_cache : Option ImmutableIdentity
deriving DecidableEq

/-- The `user_id` derivation of `initialize_identity` (identity/mod.rs, lines
59-63): `"USN-" ++ hex(sha3(public_key_bytes ++ fingerprint))` (the source
truncates the digest to 16 bytes; the model keeps the whole digest). -/
def deriveUserId (env : Env) (pk : List Nat) (fp : String) : String :=
  "USN-" ++ env.hash (hexEncode pk ++ fp)

/-- The identity record built by the fresh branch of `initialize_identity`
(identity/mod.rs, lines 54-73). -/
def freshIdentityOf (env : Env) : ImmutableIdentity :=
  { user_id := deriveUserId env (edPkOf env.freshSk) env.fingerprint
    public_key := edPkOf env.freshSk
    created_at := env.now
    device_fingerprint := env.fingerprint
    version := 1 }

/-- The two keyring writes of the fresh branch of `initialize_identity`
(identity/mod.rs, lines 75-80): private key under `"{user_id}_private"`
(base64 of the secret bytes), identity record under `"Identity"`. -/
def initStoreOf (env : Env) (st : Store) : Store :=
  Store.set
    (Store.set st ((freshIdentityOf env).user_id ++ "_private")
      (Value.bytes env.freshSk))
    "Identity" (Value.ident (freshIdentityOf env))

/-- `IdentityManager::initialize_identity` (identity/mod.rs, lines 43-85). -/
def initializeIdentity (env : Env) (st : Store) (m : IdentityManager) :
    Except Err (ImmutableIdentity × Bool) × Store × IdentityManager :=
  match st "Identity" with
  | some (Value.ident i) => (.ok (i, false), st, { identity_cache := some i })
  | some _ => (.error .parseError, st, m)
  | none =>
      (.ok (freshIdentityOf env, true), initStoreOf env st,
        { identity_cache := some (freshIdentityOf env) })

/-- `IdentityManager::get_current_identity` (identity/mod.rs, lines 87-94). -/
def getCurrentIdentity (env : Env) (st : Store) (m : IdentityManager) :
    Except Err ImmutableIdentity × Store × IdentityManager :=
  match m.identity_cache with
  | some i => (.ok i, st, m)
  | none =>
      match initializeIdentity env st m with
      | (.ok (i, _), st2, m2) => (.ok i, st2, m2)
      | (.error e, st2, m2) => (.error e, st2, m2)

/-- `IdentityManager::verify_device` (identity/mod.rs, lines 133-136): the
current fingerprint (`env.fingerprint`) against the recorded one. -/
def verifyDevice (env : Env) (i : ImmutableIdentity) : Bool :=
  env.fingerprint == i.device_fingerprint

/-- `IdentityManager::sign_data` (identity/mod.rs, lines 138-153): fetch the
private key from the keyring (`KeyNotFoundError` when absent), base64-decode
it, rebuild the keypair (`SecretKey::from_bytes` demands 32 bytes,
`PublicKey::from_bytes` demands 32 bytes), then sign. -/
def signData (st : Store) (i : ImmutableIdentity) (data : List Nat) :
    Except Err (List Nat) :=
  match st (i.user_id ++ "_private") with
  | none => .error .keyNotFound
  | some (Value.bytes sk) =>
      if sk.length = 32 then
        if i.public_key.length = 32 then .ok (edSignRaw sk data)
        else .error .parseError
      else .error .parseError
  | some _ => .error .parseError

/-- `IdentityManager::verify_signature` (identity/mod.rs, lines 155-163).
Note the source applies `?` to `PublicKey::from_bytes` and
`Signature::from_bytes`, so parse failures propagate as errors; only a
well-formed signature that fails verification yields `Ok(false)`. -/
def verifySignature (i : ImmutableIdentity) (data sig2 : List Nat) :
    Except Err Bool :=
  if i.public_key.length = 32 then
    if sig2.length = 64 then .ok (edVerifyRaw i.public_key data sig2)
    else .error .parseError
  else .error .parseError

/-- `IdentityManager::destroy_identity` (identity/mod.rs, lines 205-223):
only when an identity is cached does it delete the private key and the
identity record; it always returns `Ok(())`. -/
def destroyIdentity (st : Store) (m : IdentityManager) :
    Except Err Unit × Store × IdentityManager :=
  match m.identity_cache with
  | none => (.ok (), st, m)
  | some i =>
      (.ok (),
        Store.del (Store.del st (i.user_id ++ "_private")) "Identity",
        { identity_cache := none })

/-- The `"{:?}"` debug rendering of `LicenseType`. -/
def typeName : LicenseType → String
  | .Trial => "Trial"
  | .Personal => "Personal"
  | .Professional => "Professional"
  | .Enterprise => "Enterprise"
  | .Lifetime => "Lifetime"

/-- `LicenseManager::generate_license_id` (license/mod.rs, lines 292-299):
`"LIC-" ++ hex(sha3(user_id ++ debug(license_type) ++ timestamp))` (the
source truncates the digest to 12 bytes; the model keeps the whole digest
and renders the timestamp with `toString` instead of little-endian bytes). -/
def generateLicenseId (env : Env) (uid : String) (t : LicenseType) : String :=
  "LIC-" ++ env.hash (uid ++ typeName t ++ toString env.now)

/-- `LicenseManager::sign_license` (license/mod.rs, lines 301-308):
`hex(sha3(license_id ++ user_id ++ "UsenetSync-License-v1"))`. -/
def signLicense (env : Env) (lid uid : String) : String :=
  env.hash (lid ++ uid ++ "UsenetSync-License-v1")

/-- `LicenseManager::verify_license_signature` (license/mod.rs, lines
310-313). -/
def verifyLicenseSignature (env : Env) (l : License) : Bool :=
  l.signature == signLicense env l.license_id l.user_id

/-- `LicenseManager::has_used_trial` (license/mod.rs, lines 341-347): any
readable entry under `"trial_used_{user_id}"` counts as used. -/
def hasUsedTrial (st : Store) (uid : String) : Bool :=
  (st ("trial_used_" ++ uid)).isSome

/-- `LicenseManager::mark_trial_used` (license/mod.rs, lines 349-353). -/
def markTrialUsed (st : Store) (uid : String) : Store :=
  Store.set st ("trial_used_" ++ uid) (Value.str "true")

/-- `LicenseManager::store_license` (license/mod.rs, lines 328-332): the
license serialized under `"license_{license.user_id}"`. -/
def storeLicense (st : Store) (l : License) : Store :=
  Store.set st ("license_" ++ l.user_id) (Value.lic l)

/-- `LicenseManager::get_stored_license` (license/mod.rs, lines 334-339):
errors when the entry is absent or does not deserialize as a `License`. -/
def getStoredLicense (st : Store) (uid : String) : Except Err License :=
  match st ("license_" ++ uid) with
  | some (Value.lic l) => .ok l
  | some _ => .error .parseError
  | none => .error .noLicense

/-- The license record built by `activate_trial` (license/mod.rs, lines
162-176); `Duration::days(30)` is 2592000 seconds. -/
def trialLicenseOf (env : Env) (i : ImmutableIdentity) : License :=
  { license_id := generateLicenseId env i.user_id .Trial
    user_id := i.user_id
    license_type := .Trial
    activated_at := env.now
    expires_at := some (env.now + 2592000)
    device_fingerprint := i.device_fingerprint
    features := LicenseFeatures.trial
    signature := signLicense env (generateLicenseId env i.user_id .Trial) i.user_id
    is_active := true
    activation_count := 1
    max_activations := 1 }

/-- `LicenseManager::activate_trial` (license/mod.rs, lines 149-185). -/
def activateTrial (env : Env) (st : Store) (m : IdentityManager) :
    Except Err License × Store × IdentityManager :=
  match getCurrentIdentity env st m with
  | (.error e, st2, m2) => (.error e, st2, m2)
  | (.ok i, st2, m2) =>
      if hasUsedTrial st2 i.user_id then (.error .trialAlreadyUsed, st2, m2)
      else if verifyDevice env i = false then
        (.error .deviceVerificationFailed, st2, m2)
      else
        (.ok (trialLicenseOf env i),
          markTrialUsed (storeLicense st2 (trialLicenseOf env i)) i.user_id,
          m2)

/-- The projection `serde_json` performs when deserializing the payload into
`LicenseKey`: the five declared fields are kept, unknown members dropped. -/
def toLicenseKey (p : KeyPayload) : LicenseKey :=
  { key := p.key
    license_type := p.license_type
    duration_days := p.duration_days
    max_activations := p.max_activations
    features := p.features }

/-- `LicenseManager::decode_license_key` (license/mod.rs, lines 315-326).
The input is the decoded view of the key string: `none` stands for a string
on which `base64::decode` or `serde_json::from_slice` fails; `some p` for a
string whose JSON object is `p`.  The only validation performed on a
well-formed payload is `key.len() >= 32`. -/
def decodeLicenseKey (k : Option KeyPayload) : Except Err LicenseKey :=
  match k with
  | none => .error .invalidLicenseKey
  | some p =>
      if p.key.length < 32 then .error .invalidLicenseKey
      else .ok (toLicenseKey p)

/-- `LicenseManager::get_activation_count` (license/mod.rs, lines 355-363):
`parse::<u32>().unwrap_or(0)` on the stored string, 0 when absent. -/
def getActivationCount (st : Store) (key2 : String) : Nat :=
  match st ("activations_" ++ key2) with
  | some (Value.str c) => (c.toNat?).getD 0
  | some _ => 0
  | none => 0

/-- `LicenseManager::record_activation` (license/mod.rs, lines 365-376). -/
def recordActivation (st : Store) (key2 uid : String) : Store :=
  Store.set
    (Store.set st ("activations_" ++ key2)
      (Value.str (toString (getActivationCount st key2 + 1))))
    ("activation_" ++ key2 ++ "_" ++ toString (getActivationCount st key2 + 1))
    (Value.str uid)

/-- The license record built by `activate_paid_license` (license/mod.rs,
lines 204-220); `Duration::days(d)` is `d * 86400` seconds. -/
def paidLicenseOf (env : Env) (i : ImmutableIdentity) (d : LicenseKey)
    (cnt : Nat) : License :=
  { license_id := generateLicenseId env i.user_id d.license_type
    user_id := i.user_id
    license_type := d.license_type
    activated_at := env.now
    expires_at := d.duration_days.map (fun days => env.now + days * 86400)
    device_fingerprint := i.device_fingerprint
    features := d.features
    signature := signLicense env (generateLicenseId env i.user_id d.license_type) i.user_id
    is_active := true
    activation_count := cnt + 1
    max_activations := d.max_activations }

/-- `LicenseManager::activate_paid_license` (license/mod.rs, lines 187-229). -/
def activatePaidLicense (env : Env) (st : Store) (m : IdentityManager)
    (k : Option KeyPayload) :
    Except Err License × Store × IdentityManager :=
  match getCurrentIdentity env st m with
  | (.error e, st2, m2) => (.error e, st2, m2)
  | (.ok i, st2, m2) =>
      match decodeLicenseKey k with
      | .error e => (.error e, st2, m2)
      | .ok d =>
          if verifyDevice env i = false then
            (.error .deviceVerificationFailed, st2, m2)
          else if d.max_activations ≤ getActivationCount st2 d.key then
            (.error .activationLimitReached, st2, m2)
          else
            (.ok (paidLicenseOf env i d (getActivationCount st2 d.key)),
              recordActivation
                (storeLicense st2 (paidLicenseOf env i d (getActivationCount st2 d.key)))
                d.key i.user_id,
              m2)

/-- The expiry test of `validate_current_license` (license/mod.rs, lines
251-255): expired exactly when `Utc::now() > expires_at`. -/
def expired (env : Env) (l : License) : Bool :=
  match l.expires_at with
  | some e => decide (e < env.now)
  | none => false

/-- `LicenseManager::validate_current_license` (license/mod.rs, lines
231-268). -/
def validateCurrentLicense (env : Env) (st : Store) (m : IdentityManager) :
    Except Err (Bool × Option License) × Store × IdentityManager :=
  match getCurrentIdentity env st m with
  | (.error e, st2, m2) => (.error e, st2, m2)
  | (.ok i, st2, m2) =>
      match getStoredLicense st2 i.user_id with
      | .error _ => (.ok (false, none), st2, m2)
      | .ok l =>
          if l.user_id ≠ i.user_id then (.ok (false, none), st2, m2)
          else if l.device_fingerprint ≠ i.device_fingerprint then
            (.ok (false, none), st2, m2)
          else if expired env l then (.ok (false, none), st2, m2)
          else if verifyLicenseSignature env l = false then
            (.ok (false, none), st2, m2)
          else if l.is_active = false then (.ok (false, none), st2, m2)
          else (.ok (true, some l), st2, m2)

/-- `LicenseManager::deactivate_license` (license/mod.rs, lines 277-290). -/
def deactivateLicense (env : Env) (st : Store) (m : IdentityManager) :
    Except Err Unit × Store × IdentityManager :=
  match getCurrentIdentity env st m with
  | (.error e, st2, m2) => (.error e, st2, m2)
  | (.ok i, st2, m2) =>
      match getStoredLicense st2 i.user_id with
      | .error e => (.error e, st2, m2)
      | .ok l => (.ok (), storeLicense st2 { l with is_active := false }, m2)

/-- Spec side of claim C1: the validity checklist exactly as the spec words
it — `user_id` matches the current identity, `device_fingerprint` matches,
not expired (if `expires_at` is present it is not in the past), the
signature recomputes correctly, and `is_active` is true. -/
def specLicenseChecks (env : Env) (i : ImmutableIdentity) (l : License) : Bool :=
  (l.user_id == i.user_id) &&
  (l.device_fingerprint == i.device_fingerprint) &&
  (match l.expires_at with
   | some e => decide (env.now ≤ e)
   | none => true) &&
  (l.signature == signLicense env l.license_id l.user_id) &&
  l.is_active

/-- Spec side of claim C1: the result the spec prescribes — `(true, some l)`
exactly when a license is stored for the current `user_id` and every check
passes, `(false, none)` otherwise. -/
def specValidateResult (env : Env) (st : Store) (i : ImmutableIdentity) :
    Bool × Option License :=
  match st ("license_" ++ i.user_id) with
  | some (Value.lic l) =>
      if specLicenseChecks env i l then (true, some l) else (false, none)
  | _ => (false, none)

/-! Concrete objects used by the witness and counterexample theorems. -/

/-- The identity function on strings: a concrete instantiation of
`Env.hash`; it is injective, as the idealized-hash hypotheses demand. -/
def idHash : String → String := fun s => s

def wSkA : List Nat := List.range 32

/-- A concrete environment. -/
def wEnvA : Env :=
  { now := 0, fingerprint := "fp", freshSk := wSkA, hash := idHash }

/-- Same environment with different RNG output for the fresh keypair. -/
def wEnvB : Env :=
  { now := 0, fingerprint := "fp", freshSk := wSkA.map (fun b => b + 1),
    hash := idHash }

/-- A concrete identity (public key irrelevant to the license claims). -/
def wIdC : ImmutableIdentity :=
  { user_id := "USN-w", public_key := [], created_at := 0,
    device_fingerprint := "fp", version := 1 }

/-- A concrete identity whose keypair is consistent with `wSkA`. -/
def wIdSig : ImmutableIdentity :=
  { user_id := "USN-s", public_key := edPkOf wSkA, created_at := 0,
    device_fingerprint := "fp", version := 1 }

/-- Keyring holding the private key matching `wIdSig`. -/
def wStSig : Store :=
  Store.set Store.empty ("USN-s" ++ "_private") (Value.bytes wSkA)

/-- A concrete active license for `wIdC`, honestly signed under `wEnvA`. -/
def wLicC : License :=
  { license_id := "LIC-w", user_id := "USN-w", license_type := .Trial,
    activated_at := 0, expires_at := some 10, device_fingerprint := "fp",
    features := LicenseFeatures.trial,
    signature := signLicense wEnvA "LIC-w" "USN-w",
    is_active := true, activation_count := 1, max_activations := 1 }

/-- Keyring holding only `wLicC`. -/
def wStC : Store :=
  Store.set Store.empty ("license_" ++ "USN-w") (Value.lic wLicC)

/-- A well-formed key payload whose JSON carries `price: 19.99`. -/
def wPayC : KeyPayload :=
  { key := String.mk (List.replicate 32 (Char.ofNat 107)),
    license_type := .Personal, duration_days := some 365,
    max_activations := 3, features := LicenseFeatures.personal,
    extra := [("price", "19.99")] }

/-- The user id created by `activateTrial` from `wEnvA` on a fresh store. -/
def wUidA : String := deriveUserId wEnvA (edPkOf wSkA) "fp"

/-- Run 1 of the destroy-and-recreate scenario: trial on a fresh store. -/
def wRun1 : Except Err License × Store × IdentityManager :=
  activateTrial wEnvA Store.empty ⟨none⟩

/-- Run 2: destroy the identity created by run 1. -/
def wRun2 : Except Err Unit × Store × IdentityManager :=
  destroyIdentity wRun1.2.1 wRun1.2.2

/-- Run 3: activate a trial again after the destroy, with a fresh keypair. -/
def wRun3 : Except Err License × Store × IdentityManager :=
  activateTrial wEnvB wRun2.2.1 wRun2.2.2

/-- Paid-license activation with the `price: 19.99` payload. -/
def wRunPaid : Except Err License × Store × IdentityManager :=
  activatePaidLicense wEnvA Store.empty ⟨some wIdC⟩ (some wPayC)

/-! Helper lemmas about the store and about the keyring entry names. -/

theorem Store.set_self (st : Store) (k : String) (v : Value) :
    Store.set st k v k = some v := by
  simp [Store.set]

theorem Store.set_other (st : Store) (k : String) (v : Value) (k2 : String)
    (h : k2 ≠ k) : Store.set st k v k2 = st k2 := by
  simp [Store.set, h]

theorem Store.del_self (st : Store) (k : String) : Store.del st k k = none := by
  simp [Store.del]

theorem Store.del_other (st : Store) (k : String) (k2 : String)
    (h : k2 ≠ k) : Store.del st k k2 = st k2 := by
  simp [Store.del, h]

theorem str_ne_of_length_ne {a b : String} (h : a.length ≠ b.length) :
    a ≠ b :=
  fun hc => h (hc ▸ rfl)

theorem str_append_cancel_right {a b c : String} (h : a ++ c = b ++ c) :
    a = b := by
  have h2 : a.data ++ c.data = b.data ++ c.data := by
    have h9 := congrArg String.data h
    simpa using h9
  have h3 := List.append_cancel_right h2
  cases a; cases b; exact congrArg String.mk h3

theorem str_append_cancel_left {a b c : String} (h : a ++ b = a ++ c) :
    b = c := by
  have h2 : a.data ++ b.data = a.data ++ c.data := by
    have h9 := congrArg String.data h
    simpa using h9
  have h3 := List.append_cancel_left h2
  cases b; cases c; exact congrArg String.mk h3

theorem trial_key_ne_identity_key (u : String) :
    "trial_used_" ++ u ≠ "Identity" := by
  apply str_ne_of_length_ne
  rw [String.length_append]
  have e1 : ("trial_used_" : String).length = 11 := by decide
  have e2 : ("Identity" : String).length = 8 := by decide
  omega

theorem trial_key_ne_private_key (u : String) :
    "trial_used_" ++ u ≠ u ++ "_private" := by
  apply str_ne_of_length_ne
  rw [String.length_append, String.length_append]
  have e1 : ("trial_used_" : String).length = 11 := by decide
  have e2 : ("_private" : String).length = 8 := by decide
  omega

theorem license_key_ne_trial_key (u : String) :
    "license_" ++ u ≠ "trial_used_" ++ u := by
  apply str_ne_of_length_ne
  rw [String.length_append, String.length_append]
  have e1 : ("license_" : String).length = 8 := by decide
  have e2 : ("trial_used_" : String).length = 11 := by decide
  omega

theorem private_key_ne_identity_key (u : String) :
    u ++ "_private" ≠ "Identity" := by
  intro h
  have hl := congrArg String.length h
  rw [String.length_append] at hl
  have e1 : ("_private" : String).length = 8 := by decide
  have e2 : ("Identity" : String).length = 8 := by decide
  have h0 : u.length = 0 := by omega
  have hu : u = "" := by
    cases u with
    | mk d =>
        cases d with
        | nil => rfl
        | cons c t => simp [String.length] at h0
  rw [hu] at h
  exact absurd h (by decide)

theorem spec_expiry_eq (env : Env) (l : License) :
    (match l.expires_at with
     | some e => decide (env.now ≤ e)
     | none => true) = !(expired env l) := by
  cases he : l.expires_at with
  | none => simp [expired, he]
  | some e =>
      by_cases hc : e < env.now
      · simp [expired, he, hc, show ¬ (env.now ≤ e) from by omega]
      · simp [expired, he, hc, show env.now ≤ e from by omega]

/-- Shared characterization of `validate_current_license` with an identity
cached, used by several claim theorems. -/
theorem validate_spec_eq (env : Env) (st : Store)
    (i : ImmutableIdentity) :
    validateCurrentLicense env st ⟨some i⟩ =
      (.ok (specValidateResult env st i), st, ⟨some i⟩) := by
  unfold validateCurrentLicense getCurrentIdentity specValidateResult
  cases h : st ("license_" ++ i.user_id) with
  | none => simp [getStoredLicense, h]
  | some v =>
      cases v with
      | str s => simp [getStoredLicense, h]
      | bytes b => simp [getStoredLicense, h]
      | ident j => simp [getStoredLicense, h]
      | lic l =>
          simp only [getStoredLicense, h]
          by_cases h1 : l.user_id = i.user_id
          · by_cases h2 : l.device_fingerprint = i.device_fingerprint
            · by_cases h3 : expired env l = true
              · simp [specLicenseChecks, spec_expiry_eq, h1, h2, h3]
              · by_cases h4 :
                  l.signature = signLicense env l.license_id l.user_id
                · rw [h1] at h4
                  by_cases h5 : l.is_active = true
                  · simp [specLicenseChecks, spec_expiry_eq,
                      verifyLicenseSignature, h1, h2, h3, h4, h5]
                  · have h6 : l.is_active = false := by
                      revert h5; cases l.is_active <;> simp
                    simp [specLicenseChecks, spec_expiry_eq,
                      verifyLicenseSignature, h1, h2, h3, h4, h6]
                · rw [h1] at h4
                  simp [specLicenseChecks, spec_expiry_eq,
                    verifyLicenseSignature, h1, h2, h3, h4]
            · simp [specLicenseChecks, h1, h2]
          · simp [specLicenseChecks, h1]

/-- C1: with an identity current, `validate_current_license` never returns
an error: it yields `(true, some license)` exactly when a license is stored
for the current `user_id` and every check of the spec's checklist passes
(`user_id` match, `device_fingerprint` match, not expired, signature
recomputes, `is_active` true), and `(false, none)` in every other case; the
keyring and the manager state are left unchanged. -/
theorem validate_license_fail_closed (env : Env) (st : Store)
    (i : ImmutableIdentity) :
    validateCurrentLicense env st ⟨some i⟩ =
      (.ok (specValidateResult env st i), st, ⟨some i⟩) :=
  validate_spec_eq env st i

/-- C9: when a license is stored for the current identity,
`deactivate_license` succeeds and re-persists the same record with
`is_active` flipped to `false`; all other fields are unchanged and the
record remains in the keyring (soft revocation, no deletion). -/
theorem deactivate_license_soft (env : Env) (st : Store)
    (i : ImmutableIdentity) (l : License)
    (hst : st ("license_" ++ i.user_id) = some (Value.lic l)) :
    deactivateLicense env st ⟨some i⟩ =
      (.ok (), storeLicense st { l with is_active := false }, ⟨some i⟩) ∧
    storeLicense st { l with is_active := false } ("license_" ++ l.user_id) =
      some (Value.lic { l with is_active := false }) ∧
    ({ l with is_active := false } : License).is_active = false ∧
    ({ l with is_active := false } : License).license_id = l.license_id ∧
    ({ l with is_active := false } : License).user_id = l.user_id ∧
    ({ l with is_active := false } : License).license_type = l.license_type ∧
    ({ l with is_active := false } : License).activated_at = l.activated_at ∧
    ({ l with is_active := false } : License).expires_at = l.expires_at ∧
    ({ l with is_active := false } : License).device_fingerprint =
      l.device_fingerprint ∧
    ({ l with is_active := false } : License).features = l.features ∧
    ({ l with is_active := false } : License).signature = l.signature := by
  refine ⟨?_, ?_, rfl, rfl, rfl, rfl, rfl, rfl, rfl, rfl, rfl⟩
  · unfold deactivateLicense getCurrentIdentity getStoredLicense
    simp [hst]
  · exact Store.set_self st ("license_" ++ l.user_id)
      (Value.lic { l with is_active := false })

/-- Witness for C9 at a concrete store and license. -/
theorem deactivate_license_soft_witness :
    wStC ("license_" ++ wIdC.user_id) = some (Value.lic wLicC) ∧
    deactivateLicense wEnvA wStC ⟨some wIdC⟩ =
      (.ok (), storeLicense wStC { wLicC with is_active := false },
        ⟨some wIdC⟩) :=
  ⟨by decide, (deactivate_license_soft wEnvA wStC wIdC wLicC (by decide)).1⟩

/-- C10: `destroy_identity` on a manager whose in-memory cache is empty
returns `Ok` and deletes nothing — the keyring is unchanged, so the public
identity record and the private key both remain; deletion of the two
records happens only when an identity is cached. -/
theorem destroy_identity_frame :
    (∀ st : Store, destroyIdentity st ⟨none⟩ = (.ok (), st, ⟨none⟩)) ∧
    (∀ (st : Store) (i : ImmutableIdentity),
      (destroyIdentity st ⟨some i⟩).2.1 "Identity" = none ∧
      (destroyIdentity st ⟨some i⟩).2.1 (i.user_id ++ "_private") = none) := by
  constructor
  · intro st
    rfl
  · intro st i
    constructor
    · exact Store.del_self (Store.del st (i.user_id ++ "_private")) "Identity"
    · show Store.del (Store.del st (i.user_id ++ "_private")) "Identity"
        (i.user_id ++ "_private") = none
      rw [Store.del_other (Store.del st (i.user_id ++ "_private")) "Identity"
        (i.user_id ++ "_private") (private_key_ne_identity_key i.user_id)]
      exact Store.del_self st (i.user_id ++ "_private")

/-- C2: under the activation preconditions (trial marker unset, device
verification passing), `activate_trial` succeeds, the persisted trial-used
marker for that `user_id` is then set, and every later `activate_trial`
call for the same identity — under any environment — returns the
trial-already-used error and leaves the keyring unchanged (no new license
is created or persisted). -/
theorem trial_activation_once (env : Env) (st : Store) (i : ImmutableIdentity)
    (h1 : hasUsedTrial st i.user_id = false)
    (h2 : verifyDevice env i = true) :
    activateTrial env st ⟨some i⟩ =
      (.ok (trialLicenseOf env i),
        markTrialUsed (storeLicense st (trialLicenseOf env i)) i.user_id,
        ⟨some i⟩) ∧
    hasUsedTrial
      (markTrialUsed (storeLicense st (trialLicenseOf env i)) i.user_id)
      i.user_id = true ∧
    (∀ env2 : Env,
      activateTrial env2
        (markTrialUsed (storeLicense st (trialLicenseOf env i)) i.user_id)
        ⟨some i⟩ =
      (.error .trialAlreadyUsed,
        markTrialUsed (storeLicense st (trialLicenseOf env i)) i.user_id,
        ⟨some i⟩)) := by
  have hu : hasUsedTrial
      (markTrialUsed (storeLicense st (trialLicenseOf env i)) i.user_id)
      i.user_id = true := by
    unfold hasUsedTrial markTrialUsed
    rw [Store.set_self]
    rfl
  refine ⟨?_, hu, ?_⟩
  · unfold activateTrial getCurrentIdentity
    simp [h1, h2]
  · intro env2
    unfold activateTrial getCurrentIdentity
    simp [hu]

/-- Witness for C2 at a concrete identity and an empty keyring. -/
theorem trial_activation_once_witness :
    hasUsedTrial Store.empty wIdC.user_id = false ∧
    verifyDevice wEnvA wIdC = true ∧
    activateTrial wEnvA Store.empty ⟨some wIdC⟩ =
      (.ok (trialLicenseOf wEnvA wIdC),
        markTrialUsed (storeLicense Store.empty (trialLicenseOf wEnvA wIdC))
          wIdC.user_id,
        ⟨some wIdC⟩) :=
  ⟨by decide, by decide,
    (trial_activation_once wEnvA Store.empty wIdC (by decide) (by decide)).1⟩

/-- C7: starting from a fresh (empty) keyring with no cached identity,
`activate_trial` succeeds, returning a license with `license_type = Trial`,
`activated_at` the current time, `expires_at` thirty days (2592000 seconds)
later, `is_active = true` and `features.max_storage_gb = some 10`; and
`validate_current_license` called immediately afterwards returns
`(true, some license)` for that very license. -/
theorem fresh_store_trial_scenario (env : Env) :
    activateTrial env Store.empty ⟨none⟩ =
      (.ok (trialLicenseOf env (freshIdentityOf env)),
        markTrialUsed
          (storeLicense (initStoreOf env Store.empty)
            (trialLicenseOf env (freshIdentityOf env)))
          (freshIdentityOf env).user_id,
        ⟨some (freshIdentityOf env)⟩) ∧
    (trialLicenseOf env (freshIdentityOf env)).license_type = .Trial ∧
    (trialLicenseOf env (freshIdentityOf env)).activated_at = env.now ∧
    (trialLicenseOf env (freshIdentityOf env)).expires_at =
      some (env.now + 2592000) ∧
    (trialLicenseOf env (freshIdentityOf env)).is_active = true ∧
    (trialLicenseOf env (freshIdentityOf env)).features.max_storage_gb =
      some 10 ∧
    validateCurrentLicense env
      (markTrialUsed
        (storeLicense (initStoreOf env Store.empty)
          (trialLicenseOf env (freshIdentityOf env)))
        (freshIdentityOf env).user_id)
      ⟨some (freshIdentityOf env)⟩ =
      (.ok (true, some (trialLicenseOf env (freshIdentityOf env))),
        markTrialUsed
          (storeLicense (initStoreOf env Store.empty)
            (trialLicenseOf env (freshIdentityOf env)))
          (freshIdentityOf env).user_id,
        ⟨some (freshIdentityOf env)⟩) := by
  have hmarker : hasUsedTrial (initStoreOf env Store.empty)
      (freshIdentityOf env).user_id = false := by
    unfold hasUsedTrial initStoreOf
    rw [Store.set_other _ _ _ _ (trial_key_ne_identity_key _)]
    rw [Store.set_other _ _ _ _ (trial_key_ne_private_key _)]
    rfl
  have hdev : verifyDevice env (freshIdentityOf env) = true := by
    unfold verifyDevice freshIdentityOf
    simp
  have hlic : getStoredLicense
      (markTrialUsed
        (storeLicense (initStoreOf env Store.empty)
          (trialLicenseOf env (freshIdentityOf env)))
        (freshIdentityOf env).user_id)
      (freshIdentityOf env).user_id =
      .ok (trialLicenseOf env (freshIdentityOf env)) := by
    unfold getStoredLicense markTrialUsed storeLicense trialLicenseOf
    simp only
    rw [Store.set_other _ _ _ _ (license_key_ne_trial_key _)]
    rw [Store.set_self]
  have hexp : ¬ (env.now + 2592000 < env.now) := by omega
  refine ⟨?_, rfl, rfl, rfl, rfl, rfl, ?_⟩
  · unfold activateTrial getCurrentIdentity initializeIdentity
    simp [Store.empty, hmarker, hdev]
  · unfold validateCurrentLicense getCurrentIdentity
    simp only [hlic]
    simp [trialLicenseOf, expired, hexp, verifyLicenseSignature]

theorem edPkOf_length (sk : List Nat) : (edPkOf sk).length = sk.length := by
  simp [edPkOf]

theorem edSignRaw_length (sk data : List Nat) :
    (edSignRaw sk data).length = 64 := by
  simp [edSignRaw]

theorem edSkOfPk_edPkOf (sk : List Nat) (h : ∀ b ∈ sk, b < 256) :
    edSkOfPk (edPkOf sk) = sk := by
  unfold edSkOfPk edPkOf
  rw [List.map_map]
  have h2 : ∀ b ∈ sk, ((b + 1) % 256 + 255) % 256 = b := by
    intro b hb
    have h3 := h b hb
    omega
  calc sk.map ((fun b => (b + 255) % 256) ∘ fun b => (b + 1) % 256)
      = sk.map id := List.map_congr_left (fun b hb => by simpa using h2 b hb)
    _ = sk := List.map_id sk

theorem flipBit_length (j k2 : Nat) (l : List Nat) :
    (flipBit j k2 l).length = l.length := by
  simp [flipBit]

theorem flipBit_ne (j k2 : Nat) (l : List Nat) (hj : j < l.length) :
    flipBit j k2 l ≠ l := by
  intro h
  have hv := congrArg (fun x => x[j]?) h
  simp only [flipBit] at hv
  have hset : (l.set j (l.getD j 0 ^^^ 2 ^ k2))[j]? =
      some (l.getD j 0 ^^^ 2 ^ k2) := by
    simp [List.getElem?_set_self, hj]
  have hl : l[j]? = some (l.getD j 0) := by
    rw [List.getElem?_eq_getElem hj, List.getD_eq_getElem _ _ hj]
  rw [hset, hl] at hv
  have hv2 : l.getD j 0 ^^^ 2 ^ k2 = l.getD j 0 := by
    simpa using hv
  have h2 := congrArg (fun x => l.getD j 0 ^^^ x) hv2
  simp only [← Nat.xor_assoc, Nat.xor_self, Nat.zero_xor] at h2
  have h3 : 0 < 2 ^ k2 := pow_pos (by omega : (0 : Nat) < 2) k2
  omega

/-- C3: when the matching private key is present in the keyring,
`verify_signature(identity, data, sign_data(identity, data))` is `Ok(true)`
for every byte sequence `data`, and flipping any single bit of the
signature makes it `Ok(false)`. -/
theorem sign_verify_roundtrip_bitflip (st : Store) (i : ImmutableIdentity)
    (sk data : List Nat)
    (hstore : st (i.user_id ++ "_private") = some (Value.bytes sk))
    (hlen : sk.length = 32)
    (hbytes : ∀ b ∈ sk, b < 256)
    (hpk : i.public_key = edPkOf sk) :
    signData st i data = .ok (edSignRaw sk data) ∧
    verifySignature i data (edSignRaw sk data) = .ok true ∧
    (∀ j k2 : Nat, j < 64 → k2 < 8 →
      verifySignature i data (flipBit j k2 (edSignRaw sk data)) =
        .ok false) := by
  have hpklen : i.public_key.length = 32 := by
    rw [hpk, edPkOf_length, hlen]
  refine ⟨?_, ?_, ?_⟩
  · unfold signData
    rw [hstore]
    simp [hlen, hpklen]
  · unfold verifySignature
    simp only [hpklen, edSignRaw_length, if_pos rfl]
    unfold edVerifyRaw
    rw [hpk, edSkOfPk_edPkOf sk hbytes]
    simp
  · intro j k2 hj hk
    unfold verifySignature
    have hflen : (flipBit j k2 (edSignRaw sk data)).length = 64 := by
      rw [flipBit_length, edSignRaw_length]
    simp only [hpklen, hflen, if_pos rfl]
    unfold edVerifyRaw
    rw [hpk, edSkOfPk_edPkOf sk hbytes]
    have hne : flipBit j k2 (edSignRaw sk data) ≠ edSignRaw sk data :=
      flipBit_ne j k2 _ (by rw [edSignRaw_length]; exact hj)
    simp [beq_eq_false_iff_ne.mpr hne]

/-- Witness for C3 at a concrete keypair, keyring and data. -/
theorem sign_verify_roundtrip_bitflip_witness :
    wStSig (wIdSig.user_id ++ "_private") = some (Value.bytes wSkA) ∧
    wSkA.length = 32 ∧
    verifySignature wIdSig [1, 2, 3] (edSignRaw wSkA [1, 2, 3]) = .ok true ∧
    verifySignature wIdSig [1, 2, 3]
      (flipBit 0 0 (edSignRaw wSkA [1, 2, 3])) = .ok false := by
  have hbytes : ∀ b ∈ wSkA, b < 256 := by
    intro b hb
    have hr : b < 32 := List.mem_range.mp (by simpa [wSkA] using hb)
    omega
  refine ⟨by decide, by decide, ?_, ?_⟩
  · exact (sign_verify_roundtrip_bitflip wStSig wIdSig wSkA [1, 2, 3]
      (by decide) (by decide) hbytes rfl).2.1
  · exact (sign_verify_roundtrip_bitflip wStSig wIdSig wSkA [1, 2, 3]
      (by decide) (by decide) hbytes rfl).2.2 0 0 (by decide) (by decide)

/-- C4 (code bug): the source applies `?` to `Signature::from_bytes`, so a
malformed signature of the wrong length (here: empty, and 63 bytes) makes
`verify_signature` return an error instead of `Ok(false)`, although its
public key is a valid 32-byte key. -/
theorem verify_signature_errs_on_malformed :
    verifySignature wIdSig [] [] = .error .parseError ∧
    verifySignature wIdSig [] (List.replicate 63 0) = .error .parseError := by
  constructor <;> decide

/-- C5 (counterexample): activate a trial on a fresh keyring, destroy the
identity, then create a fresh identity (new random keypair) and call
`activate_trial` again.  Although the trial-used marker of the old
`user_id` is still persisted, the second activation succeeds — it does not
fail with the trial-already-used error — because the recreated identity has
a different `user_id`. -/
theorem trial_reset_after_destroy_cex :
    wRun1.1.toOption.isSome = true ∧
    wRun2.1 = .ok () ∧
    hasUsedTrial wRun2.2.1 wUidA = true ∧
    wRun3.1.toOption.isSome = true ∧
    wRun3.1 ≠ Except.error Err.trialAlreadyUsed := by
  refine ⟨by decide, by decide, by decide, by decide, by decide⟩

/-- C5 (amended): `destroy_identity` leaves the persisted trial-used marker
of the destroyed identity's `user_id` in the keyring, and whenever the
current identity's `user_id` still carries the marker — in particular a
recreated identity with the same `user_id` — `activate_trial` fails with
the trial-already-used error and leaves the keyring unchanged.  A recreated
identity with a fresh keypair gets a different `user_id`, so for it trial
eligibility is in fact reset. -/
theorem destroy_keeps_marker_same_uid_blocked :
    (∀ (st : Store) (i : ImmutableIdentity),
      (destroyIdentity st ⟨some i⟩).2.1 ("trial_used_" ++ i.user_id) =
        st ("trial_used_" ++ i.user_id)) ∧
    (∀ (env : Env) (st : Store) (i2 : ImmutableIdentity),
      hasUsedTrial st i2.user_id = true →
      activateTrial env st ⟨some i2⟩ =
        (.error .trialAlreadyUsed, st, ⟨some i2⟩)) := by
  constructor
  · intro st i
    show Store.del (Store.del st (i.user_id ++ "_private")) "Identity"
      ("trial_used_" ++ i.user_id) = st ("trial_used_" ++ i.user_id)
    rw [Store.del_other _ _ _ (trial_key_ne_identity_key i.user_id)]
    rw [Store.del_other _ _ _ (trial_key_ne_private_key i.user_id)]
  · intro env st i2 hu
    unfold activateTrial getCurrentIdentity
    simp [hu]

/-- Witness for the amended C5 at a concrete keyring and identity. -/
theorem destroy_keeps_marker_witness :
    (destroyIdentity wStC ⟨some wIdC⟩).2.1 ("trial_used_" ++ wIdC.user_id) =
      wStC ("trial_used_" ++ wIdC.user_id) ∧
    hasUsedTrial (markTrialUsed Store.empty wIdC.user_id) wIdC.user_id =
      true ∧
    activateTrial wEnvA (markTrialUsed Store.empty wIdC.user_id)
      ⟨some wIdC⟩ =
      (.error .trialAlreadyUsed, markTrialUsed Store.empty wIdC.user_id,
        ⟨some wIdC⟩) :=
  ⟨destroy_keeps_marker_same_uid_blocked.1 wStC wIdC, by decide,
    destroy_keeps_marker_same_uid_blocked.2 wEnvA
      (markTrialUsed Store.empty wIdC.user_id) wIdC (by decide)⟩

/-- C6 (counterexample): a license-key string whose decoded JSON object
carries `price: 19.99` — a member `serde_json` silently ignores — but is
otherwise well formed does not produce an invalid-license-key error:
activation succeeds and a license is persisted for the current user. -/
theorem paid_activation_ignores_price_cex :
    wPayC.extra = [("price", "19.99")] ∧
    wRunPaid.1.toOption.isSome = true ∧
    wRunPaid.1 ≠ Except.error Err.invalidLicenseKey ∧
    (wRunPaid.2.1 ("license_" ++ wIdC.user_id)).isSome = true := by
  refine ⟨rfl, by decide, by decide, by decide⟩

/-- C6 (amended): `activate_full_license` performs no price validation:
with the current identity cached, it returns the invalid-license-key error
for exactly the keys that fail base64/JSON decoding or whose `key` field is
shorter than 32 characters, and in that case the keyring is left unchanged
(no license is persisted); a well-formed payload decodes to its five
declared fields whatever extra members (such as a price) it carries. -/
theorem invalid_key_no_price_check :
    (∀ (env : Env) (st : Store) (i : ImmutableIdentity),
      activatePaidLicense env st ⟨some i⟩ none =
        (.error .invalidLicenseKey, st, ⟨some i⟩)) ∧
    (∀ (env : Env) (st : Store) (i : ImmutableIdentity) (p : KeyPayload),
      p.key.length < 32 →
      activatePaidLicense env st ⟨some i⟩ (some p) =
        (.error .invalidLicenseKey, st, ⟨some i⟩)) ∧
    (∀ p : KeyPayload, ¬ p.key.length < 32 →
      decodeLicenseKey (some p) = .ok (toLicenseKey p)) := by
  refine ⟨?_, ?_, ?_⟩
  · intro env st i
    rfl
  · intro env st i p hp
    unfold activatePaidLicense getCurrentIdentity decodeLicenseKey
    simp [hp]
  · intro p hp
    unfold decodeLicenseKey
    simp [hp]

/-- Witness for the amended C6: a key failing to decode is rejected with
the invalid-license-key error and nothing is stored; the well-formed
payload with a price member decodes, price ignored. -/
theorem invalid_key_no_price_check_witness :
    activatePaidLicense wEnvA Store.empty ⟨some wIdC⟩ none =
      (.error .invalidLicenseKey, Store.empty, ⟨some wIdC⟩) ∧
    decodeLicenseKey (some wPayC) = .ok (toLicenseKey wPayC) :=
  ⟨invalid_key_no_price_check.1 wEnvA Store.empty wIdC,
    invalid_key_no_price_check.2.2 wPayC (by decide)⟩

/-- C8: the local license signature is the digest of the concatenation
`license_id ++ user_id ++ "UsenetSync-License-v1"`; treating the digest as
collision-free (injective), replacing the `license_id` or the `user_id` of
an honestly signed persisted license while keeping the stored signature
makes `validate_current_license` return `(false, none)`. -/
theorem license_tamper_detection (env : Env) (st : Store)
    (i : ImmutableIdentity) (l : License) (x : String)
    (hinj : Function.Injective env.hash)
    (hsig : l.signature = signLicense env l.license_id l.user_id) :
    (∀ lid uid : String,
      signLicense env lid uid =
        env.hash (lid ++ uid ++ "UsenetSync-License-v1")) ∧
    (x ≠ l.license_id →
      (validateCurrentLicense env
        (Store.set st ("license_" ++ i.user_id)
          (Value.lic { l with license_id := x }))
        ⟨some i⟩).1 = .ok (false, none)) ∧
    (x ≠ l.user_id →
      (validateCurrentLicense env
        (Store.set st ("license_" ++ i.user_id)
          (Value.lic { l with user_id := x }))
        ⟨some i⟩).1 = .ok (false, none)) := by
  refine ⟨fun lid uid => rfl, ?_, ?_⟩
  · intro hx
    rw [validate_spec_eq]
    simp only [specValidateResult, Store.set_self]
    have hs : (l.signature == signLicense env x l.user_id) = false := by
      apply beq_eq_false_iff_ne.mpr
      intro he
      rw [hsig] at he
      unfold signLicense at he
      have h5 := hinj he
      have h6 := str_append_cancel_right h5
      have h7 := str_append_cancel_right h6
      exact hx h7.symm
    have hfalse : specLicenseChecks env i { l with license_id := x } =
        false := by
      unfold specLicenseChecks
      simp only
      rw [hs]
      simp
    rw [hfalse]
    simp
  · intro hx
    rw [validate_spec_eq]
    simp only [specValidateResult, Store.set_self]
    by_cases hxu : x = i.user_id
    · have hs : (l.signature == signLicense env l.license_id x) = false := by
        apply beq_eq_false_iff_ne.mpr
        intro he
        rw [hsig] at he
        unfold signLicense at he
        have h5 := hinj he
        have h6 := str_append_cancel_right h5
        have h7 := str_append_cancel_left h6
        exact hx h7.symm
      have hfalse : specLicenseChecks env i { l with user_id := x } =
          false := by
        unfold specLicenseChecks
        simp only
        rw [hs]
        simp
      rw [hfalse]
      simp
    · have hu : (x == i.user_id) = false := beq_eq_false_iff_ne.mpr hxu
      have hfalse : specLicenseChecks env i { l with user_id := x } =
          false := by
        unfold specLicenseChecks
        simp only
        rw [hu]
        simp
      rw [hfalse]
      simp

/-- Witness for C8 with the injective concrete digest. -/
theorem license_tamper_detection_witness :
    Function.Injective wEnvA.hash ∧
    (validateCurrentLicense wEnvA
      (Store.set Store.empty ("license_" ++ wIdC.user_id)
        (Value.lic { wLicC with license_id := "LIC-x" }))
      ⟨some wIdC⟩).1 = .ok (false, none) :=
  ⟨fun a b h => h,
    (license_tamper_detection wEnvA Store.empty wIdC wLicC "LIC-x"
      (fun a b h => h) rfl).2.1 (by decide)⟩

end UsenetSync
